import Mathlib

/-!
Verification model of the Detty-December Lagos tourism advisor
(src/detty_tourism_main.py).

The Python program keeps per-user `TouristProfile` objects in a global
`sessions` dict, exposes five tool functions over hard-coded reference
tables, builds an orchestrator agent whose instruction string embeds a
projection of the profile, and runs a console turn loop.  Here the
mutable state is threaded explicitly: the session store is an
association list from user id to profile, `datetime.now()` becomes an
explicit `now : String` argument, and the external LLM call becomes an
oracle outcome (`GenOutcome`) supplied to the driver step.
-/

namespace DettyDecember

/-- Structured payload values, modelling the Python dicts, lists,
strings and numbers stored in profile memory and reference tables.
Decimal literals such as 4.5 are represented exactly as `dec 45 1`
(meaning 45 / 10^1); no arithmetic is ever performed on them. -/
inductive Val where
  | str : String → Val
  | nat : Nat → Val
  | dec : Nat → Nat → Val
  | vlist : List Val → Val
  | vobj : List (String × Val) → Val
deriving Repr

/-- Lookup in an association list, modelling Python `d.get(k)` /
`k in d`.  Keys in all dictionaries of this program are unique. -/
def lookupKey [DecidableEq κ] (k : κ) : List (κ × β) → Option β
  | [] => none
  | (k2, v) :: rest => if k2 = k then some v else lookupKey k rest

/-- Apply `f` to the value stored at key `k`, modelling in-place mutation
of `d[k]` in Python.  Other keys are untouched; an absent key is a no-op. -/
def mapKey [DecidableEq κ] (k : κ) (f : β → β) : List (κ × β) → List (κ × β)
  | [] => []
  | (k2, v) :: rest =>
      if k2 = k then (k2, f v) :: rest else (k2, v) :: mapKey k f rest

/-- Remove key `k`, modelling Python `del d[k]`. -/
def eraseKey [DecidableEq κ] (k : κ) : List (κ × β) → List (κ × β)
  | [] => []
  | (k2, v) :: rest =>
      if k2 = k then eraseKey k rest else (k2, v) :: eraseKey k rest

/-- Store value `v` at key `k` (overwrite if present, append if absent),
modelling Python `d[k] = v`; used for `dict.update`. -/
def storeKey [DecidableEq κ] (k : κ) (v : β) : List (κ × β) → List (κ × β)
  | [] => [(k, v)]
  | (k2, v2) :: rest =>
      if k2 = k then (k2, v) :: rest else (k2, v2) :: storeKey k v rest

/-- Python slice `v[-5:]`: the last five elements (the whole list when it
has fewer than five). -/
def lastFive (l : List α) : List α := l.drop (l.length - 5)

/-- Record wrapped by `TouristProfile.save_to_memory`:
`{"data": item, "timestamp": datetime.now().isoformat()}`. -/
def tsRecord (item : Val) (now : String) : Val :=
  Val.vobj [("data", item), ("timestamp", Val.str now)]

/-- Record appended to `chat_history` by the conversation loop:
`{"role": role, "content": content}` (note: no timestamp wrapper). -/
def chatRecord (role content : String) : Val :=
  Val.vobj [("role", Val.str role), ("content", Val.str content)]

/-- Test whether a stored entry has the timestamped-record shape
`{data, timestamp}` produced by `save_to_memory`. -/
def isTimestampedRecord : Val → Bool
  | Val.vobj kvs =>
      (lookupKey "data" kvs).isSome && (lookupKey "timestamp" kvs).isSome
        && kvs.length = 2
  | _ => false

/-- Default preference map set in `TouristProfile.__init__`. -/
def default_preferences : List (String × Val) :=
  [("budget", Val.str "moderate"),
   ("interests", Val.vlist []),
   ("duration", Val.nat 0),
   ("dietary_restrictions", Val.vlist []),
   ("mobility_concerns", Val.vlist [])]

/-- The five fixed memory categories, all empty, as set in
`TouristProfile.__init__`. -/
def init_memory_bank : List (String × List Val) :=
  [("visited_places", []),
   ("saved_restaurants", []),
   ("bookings", []),
   ("safety_alerts", []),
   ("chat_history", [])]

/-- The five fixed category names, in dictionary order. -/
def memory_categories : List String :=
  ["visited_places", "saved_restaurants", "bookings", "safety_alerts",
   "chat_history"]

/-- Tourist session state: preferences plus the per-category memory bank
(class `TouristProfile`). -/
structure TouristProfile where
  user_id : String
  created_at : String
  preferences : List (String × Val)
  memory_bank : List (String × List Val)
  session_state : String
deriving Repr

/-- Constructor `TouristProfile.__init__(user_id)`; `datetime.now()` is
the explicit `now` argument. -/
def TouristProfile.create (user_id now : String) : TouristProfile :=
  { user_id := user_id
    created_at := now
    preferences := default_preferences
    memory_bank := init_memory_bank
    session_state := "active" }

/-- Method `update_preferences`: `self.preferences.update(prefs)`, a
left-to-right dict update. -/
def TouristProfile.update_preferences (p : TouristProfile)
    (prefs : List (String × Val)) : TouristProfile :=
  { p with preferences := prefs.foldl (fun d kv => storeKey kv.1 kv.2 d) p.preferences }

/-- Method `save_to_memory`: when `category` is a key of `memory_bank`,
append the timestamped record to that category; otherwise do nothing. -/
def TouristProfile.save_to_memory (p : TouristProfile) (category : String)
    (item : Val) (now : String) : TouristProfile :=
  if (lookupKey category p.memory_bank).isSome then
    { p with memory_bank :=
        mapKey category (fun l => l ++ [tsRecord item now]) p.memory_bank }
  else p

/-- Result of `TouristProfile.to_dict`: the serialized profile injected
into the orchestrator context. -/
structure ProfileDict where
  user_id : String
  preferences : List (String × Val)
  recent_memory : List (String × List Val)
deriving Repr

/-- Method `to_dict`: user id, full preferences, and the last five
entries of every memory category (`v[-5:]`). -/
def TouristProfile.to_dict (p : TouristProfile) : ProfileDict :=
  { user_id := p.user_id
    preferences := p.preferences
    recent_memory := p.memory_bank.map (fun kv => (kv.1, lastFive kv.2)) }

/-- The global `sessions: dict[str, TouristProfile]` store. -/
abbrev Store : Type := List (String × TouristProfile)

/-- Function `get_or_create_session`: return the stored profile, creating
a fresh one first when the user id is absent. -/
def get_or_create_session (s : Store) (user_id now : String) :
    Store × TouristProfile :=
  match lookupKey user_id s with
  | some p => (s, p)
  | none =>
      let p := TouristProfile.create user_id now
      (s ++ [(user_id, p)], p)

/-- Result envelope of `search_attractions`. -/
structure AttractionsResult where
  status : String
  location : String
  category : String
  count : Nat
  attractions : List Val
  timestamp : String
deriving Repr

/-- Mock attraction database keyed by `(location, category, budget)`. -/
def attractions_db : List ((String × String × String) × List Val) :=
  [(("Lekki", "beach", "budget"),
    [Val.vobj [("name", Val.str "Lekki Beach"), ("rating", Val.dec 45 1),
               ("price", Val.str "₦0"), ("hours", Val.str "6AM-6PM"),
               ("tip", Val.str "Go early to avoid crowds")],
     Val.vobj [("name", Val.str "Elegushi Beach"), ("rating", Val.dec 43 1),
               ("price", Val.str "₦500"), ("hours", Val.str "6AM-7PM")]]),
   (("VI", "shopping", "moderate"),
    [Val.vobj [("name", Val.str "Landmark Towers"), ("rating", Val.dec 47 1),
               ("price", Val.str "Various"), ("hours", Val.str "10AM-10PM")],
     Val.vobj [("name", Val.str "City Mall"), ("rating", Val.dec 45 1),
               ("price", Val.str "Various"), ("hours", Val.str "10AM-9PM")]]),
   (("Lekki", "restaurant", "moderate"),
    [Val.vobj [("name", Val.str "Craft"), ("rating", Val.dec 46 1),
               ("cuisine", Val.str "Continental"),
               ("price_range", Val.str "₦8000-₦20000")],
     Val.vobj [("name", Val.str "Cote Cuisine"), ("rating", Val.dec 45 1),
               ("cuisine", Val.str "African"),
               ("price_range", Val.str "₦7000-₦15000")]]),
   (("VI", "nightlife", "luxury"),
    [Val.vobj [("name", Val.str "Shisha Lounge"), ("rating", Val.dec 44 1),
               ("entry", Val.str "₦10000"), ("hours", Val.str "10PM-4AM")],
     Val.vobj [("name", Val.str "Club1 Lounge"), ("rating", Val.dec 43 1),
               ("entry", Val.str "₦15000"), ("hours", Val.str "9PM-5AM")]])]

/-- Tool `search_attractions(location, category, budget)`: exact lookup of
the composite key; a miss yields the empty list, and the envelope always
reports `status="success"` with `count = len(results)`. -/
def search_attractions (location category budget now : String) :
    AttractionsResult :=
  let results := (lookupKey (location, category, budget) attractions_db).getD []
  { status := "success"
    location := location
    category := category
    count := results.length
    attractions := results
    timestamp := now }

/-- Per-area safety reference row of `check_safety_status`. -/
structure SafetyInfo where
  day : Nat
  night : Nat
  alerts : List String
  tip : String
deriving Repr

/-- Safety reference table for the four known areas. -/
def safety_db : List (String × SafetyInfo) :=
  [("Lekki", { day := 8, night := 6, alerts := [],
               tip := "Generally safe, avoid isolated areas at night" }),
   ("VI", { day := 9, night := 8, alerts := [],
            tip := "Safest area, good security presence" }),
   ("Surulere", { day := 6, night := 4, alerts := ["Avoid late night walks"],
                  tip := "Use registered taxis" }),
   ("Ikoyi", { day := 8, night := 7, alerts := [],
               tip := "Safe with standard precautions" })]

/-- Default safety row used for any unknown location. -/
def default_safety_info : SafetyInfo :=
  { day := 5, night := 3, alerts := ["Check latest info"],
    tip := "Exercise caution" }

/-- Result envelope of `check_safety_status`. -/
structure SafetyResult where
  location : String
  time_of_day : String
  safety_score : Nat
  status : String
  alerts : List String
  recommendation : String
  emergency_contacts : List (String × String)
deriving Repr

/-- The fixed emergency-contact map returned by every safety check. -/
def emergency_contacts : List (String × String) :=
  [("police", "999"), ("ambulance", "112"),
   ("tourism_hotline", "+234 700 000 0000")]

/-- Tool `check_safety_status(location, time_of_day)`.  The Python code
indexes `safety_info[time_of_day]`, which raises `KeyError` unless
`time_of_day` selects a numeric score; that fallibility is modelled by
`Option` (`none` = raised).  The derived status is `safe` for score >= 7,
`caution` for score >= 5, else `avoid`. -/
def check_safety_status (location time_of_day : String) :
    Option SafetyResult :=
  let safety_info := (lookupKey location safety_db).getD default_safety_info
  let score? : Option Nat :=
    if time_of_day = "day" then some safety_info.day
    else if time_of_day = "night" then some safety_info.night
    else none
  score?.map (fun score =>
    { location := location
      time_of_day := time_of_day
      safety_score := score
      status := if score ≥ 7 then "safe"
                else if score ≥ 5 then "caution"
                else "avoid"
      alerts := safety_info.alerts
      recommendation := safety_info.tip
      emergency_contacts := emergency_contacts })

/-- Hotel row of the mock hotel database.  The source stores the nightly
price as a naira string such as "₦45000" and parses the digits back out
for the cost estimate; the numeric value is carried directly here. -/
structure Hotel where
  name : String
  price_per_night : Nat
  rating : Val
  amenities : List String
  booking_url : Option String
deriving Repr

/-- Mock hotel database keyed by `(location, budget)`. -/
def hotels_db : List ((String × String) × List Hotel) :=
  [(("Lekki", "moderate"),
    [{ name := "Lekki Palm Hotel", price_per_night := 45000,
       rating := Val.dec 46 1,
       amenities := ["WiFi", "Pool", "Restaurant"],
       booking_url := some "mock://booking1" },
     { name := "Radisson Blu", price_per_night := 65000,
       rating := Val.dec 48 1,
       amenities := ["WiFi", "Pool", "Gym", "Restaurant"],
       booking_url := none }]),
   (("VI", "luxury"),
    [{ name := "Eko Hotels", price_per_night := 120000,
       rating := Val.dec 49 1,
       amenities := ["WiFi", "Pool", "Gym", "Spa", "Restaurant"],
       booking_url := none },
     { name := "Intercontinental", price_per_night := 150000,
       rating := Val.dec 49 1,
       amenities := ["WiFi", "Pool", "Gym", "Spa", "Fine Dining"],
       booking_url := none }])]

/-- Result envelope of `search_hotels`.  The estimated total cost is the
numeric value rendered by the source as a formatted naira string. -/
structure HotelsResult where
  status : String
  location : String
  checkin_date : String
  nights : Nat
  hotel_count : Nat
  hotels : List Hotel
  estimated_total_cost : Nat
  booking_note : String
deriving Repr

/-- Tool `search_hotels(location, budget, nights, checkin_date)`: exact
lookup of `(location, budget)`; on a miss the list is empty and the cost
estimate is 0, with `status="success"` either way. -/
def search_hotels (location budget : String) (nights : Nat)
    (checkin_date : String) : HotelsResult :=
  let hotels := (lookupKey (location, budget) hotels_db).getD []
  let total_cost := match hotels with
    | [] => 0
    | h :: _ => h.price_per_night * nights
  { status := "success"
    location := location
    checkin_date := checkin_date
    nights := nights
    hotel_count := hotels.length
    hotels := hotels
    estimated_total_cost := total_cost
    booking_note := "Prices subject to availability" }

/-- Tip table of `get_local_tips`. -/
def tips_table : List (String × List String) :=
  [("transport",
    ["Use Uber or Bolt instead of street taxis - safer and tracked",
     "Traffic is worst 7-9AM and 4-7PM - plan accordingly",
     "Danfo (minibus) is cheap but crowded - good for adventurous travelers"]),
   ("food",
    ["Jollof rice competitions happen in December - try different spots",
     "Suya (grilled meat) is best at night on street corners",
     "Visit local markets (Lekki, Balogun) for authentic Lagos food"]),
   ("culture",
    ["December festivals: Taste of Lagos, Lagos Street Festival",
     "Visit museums: Nike Centre, Lekki Conservation Centre",
     "Catch live music at Afrobeats venues - Lagos is music capital"]),
   ("safety",
    ["Do not walk alone at night - use registered transport",
     "Keep valuables in hotel safe, carry minimal cash",
     "Register with your embassy before arrival",
     "Have travel insurance with medical coverage"]),
   ("events",
    ["Detty-December starts Dec 1 - street parties every weekend",
     "Beach cleanups and community events throughout month",
     "Shopping festivals with discounts in Lekki and VI"])]

/-- Result envelope of `get_local_tips`.  Note that unlike the attraction
and hotel envelopes it carries no status and no count field. -/
structure TipsResult where
  category : String
  tips : List String
  last_updated : String
  source : String
deriving Repr

/-- Tool `get_local_tips(category)`: `tips.get(category, [])`. -/
def get_local_tips (category : String) : TipsResult :=
  { category := category
    tips := (lookupKey category tips_table).getD []
    last_updated := "2025-11-16"
    source := "Local Lagos Tourism Guide" }

/-- Result envelope of `make_booking_reminder`. -/
structure ReminderResult where
  status : String
  reminder_id : String
  activity : String
  location : String
  scheduled_date : String
  scheduled_time : String
  message : String
  notification_method : String
deriving Repr

/-- The bookings payload saved by `make_booking_reminder`. -/
def bookingItem (location activity date time : String) : Val :=
  Val.vobj [("activity", Val.str activity), ("location", Val.str location),
            ("date", Val.str date), ("time", Val.str time),
            ("status", Val.str "reminder_set")]

/-- Tool `make_booking_reminder(location, activity, date, time,
tourist_id)`: fetches or creates the session, appends a bookings record
through `save_to_memory`, and returns a confirmation whose reminder id is
derived only from `(tourist_id, date, activity)`. -/
def make_booking_reminder (s : Store)
    (location activity date time tourist_id now : String) :
    Store × ReminderResult :=
  let (s1, _session) := get_or_create_session s tourist_id now
  let s2 := mapKey tourist_id
    (fun p => p.save_to_memory "bookings" (bookingItem location activity date time) now)
    s1
  (s2,
   { status := "success"
     reminder_id := "REM-" ++ tourist_id ++ "-" ++ date ++ "-" ++ activity
     activity := activity
     location := location
     scheduled_date := date
     scheduled_time := time
     message := "Reminder set for " ++ activity ++ " at " ++ location ++
                " on " ++ date ++ " at " ++ time
     notification_method := "SMS + Email (simulated)" })

/-- Orchestrator agent handle.  In the source,
`create_orchestrator_agent` bakes the string produced by
`build_orchestrator_context` into the instructions of the agent at
creation time; the variable portion of that string is exactly
`json.dumps` of the serialized profile (`to_dict`), which is injective on
profile dictionaries, so the embedded projection is modelled directly as
the `ProfileDict`. -/
structure Orchestrator where
  tourist_id : String
  context : ProfileDict
deriving Repr

/-- Function `build_orchestrator_context(tourist_id)`: get or create the
session and serialize it for context injection. -/
def build_orchestrator_context (s : Store) (tourist_id now : String) :
    Store × ProfileDict :=
  let (s1, session) := get_or_create_session s tourist_id now
  (s1, session.to_dict)

/-- Function `create_orchestrator_agent(tourist_id)`: the orchestrator is
created with the context string built at this moment. -/
def create_orchestrator_agent (s : Store) (tourist_id now : String) :
    Store × Orchestrator :=
  let (s1, ctx) := build_orchestrator_context s tourist_id now
  (s1, { tourist_id := tourist_id, context := ctx })

/-- Conversation driver lifecycle tag: the loop is either waiting for the
next input or has been terminated by quit. -/
inductive Mode where
  | awaiting
  | terminated
deriving Repr, DecidableEq

/-- State of `run_tourism_advisor`: the session store, the tourist id,
the orchestrator created at session start (or last clear), the local
`conversation_history` list, and the loop mode. -/
structure DriverState where
  store : Store
  tourist_id : String
  orchestrator : Orchestrator
  conversation_history : List Val
  mode : Mode

/-- Outcome of the external `orchestrator.generate_content` call for one
turn: a reply text, or a raised exception with message `err`. -/
inductive GenOutcome where
  | reply (text : String)
  | failure (err : String)
deriving Repr

/-- Start of `run_tourism_advisor` for a given tourist id: create the
orchestrator (which creates the session) and fetch the session. -/
def init_driver (tourist_id now : String) : DriverState :=
  let (s1, orch) := create_orchestrator_agent [] tourist_id now
  let (s2, _session) := get_or_create_session s1 tourist_id now
  { store := s2
    tourist_id := tourist_id
    orchestrator := orch
    conversation_history := []
    mode := Mode.awaiting }

/-- Python `str.strip()`: drop leading and trailing whitespace.  Modelled
directly on the character list so that it evaluates inside the kernel. -/
def pyStrip (s : String) : String :=
  String.mk
    (((s.data.dropWhile Char.isWhitespace).reverse.dropWhile
        Char.isWhitespace).reverse)

/-- Python `str.lower()` (the inputs compared against the `quit` and
`clear` commands are ASCII). -/
def pyLower (s : String) : String :=
  String.mk (s.data.map Char.toLower)

/-- The per-turn memory write of the conversation loop:
`session.memory_bank["chat_history"].extend([...])` appends the raw user
record then the raw agent record (neither passes through
`save_to_memory`, so neither is wrapped as a timestamped record). -/
def TouristProfile.extend_chat_history (p : TouristProfile)
    (user_input agent_response : String) : TouristProfile :=
  { p with memory_bank :=
      (mapKey "chat_history"
        (fun l => l ++ [chatRecord "user" user_input,
                        chatRecord "agent" agent_response])
        p.memory_bank) }

/-- One iteration of the `while True` loop of `run_tourism_advisor` on
raw input `raw`, with the generation outcome supplied by the oracle
`gen`.  Returns the next state and the text printed for the turn (the
reply, an error message, a control acknowledgement, or nothing for empty
input).  On success the turn extends `chat_history` of the stored profile
with the user record then the agent record; on failure nothing is written
to the store. -/
def driver_step (st : DriverState) (raw : String) (gen : GenOutcome)
    (now : String) : DriverState × Option String :=
  let user_input := pyStrip raw
  if user_input = "" then (st, none)
  else if pyLower user_input = "quit" then
    ({ st with mode := Mode.terminated },
     some "🙏 Thank you for using Detty-December Advisor! Enjoy Lagos! Stay safe!")
  else if pyLower user_input = "clear" then
    let s1 := eraseKey st.tourist_id st.store
    let (s2, orch) := create_orchestrator_agent s1 st.tourist_id now
    let (s3, _session) := get_or_create_session s2 st.tourist_id now
    ({ st with store := s3, orchestrator := orch },
     some "✨ Session cleared. Starting fresh!")
  else
    let hist1 := st.conversation_history ++ [chatRecord "user" user_input]
    match gen with
    | GenOutcome.reply text =>
        let store2 := mapKey st.tourist_id
          (fun p => p.extend_chat_history user_input text) st.store
        ({ st with store := store2,
                   conversation_history := hist1 ++ [chatRecord "agent" text] },
         some text)
    | GenOutcome.failure err =>
        ({ st with conversation_history := hist1 },
         some ("⚠️ Error: " ++ err ++
               "\nPlease try again or rephrase your request."))

/-- The entries currently stored for one memory category of one user
(empty when the user or the category is absent). -/
def categoryEntries (s : Store) (user_id category : String) : List Val :=
  match lookupKey user_id s with
  | some p => (lookupKey category p.memory_bank).getD []
  | none => []

/-- The serialized projection of the profile currently stored for a user. -/
def storeProjection (s : Store) (user_id : String) : Option ProfileDict :=
  (lookupKey user_id s).map TouristProfile.to_dict

/-- Sample profile with seven bookings saved, used to exercise the
five-entry projection bound on a category longer than five. -/
def sevenBookingsProfile : TouristProfile :=
  (List.range 7).foldl
    (fun p i => p.save_to_memory "bookings" (Val.nat i) "t")
    (TouristProfile.create "sample" "t0")

/-- The entries of one memory category of a profile (empty when the
category name is not a key of the memory bank). -/
def profileCategory (p : TouristProfile) (category : String) : List Val :=
  (lookupKey category p.memory_bank).getD []

section AssocLemmas

variable {κ : Type} {β : Type} [DecidableEq κ]

theorem lookupKey_mapKey_self (k : κ) (f : β → β) (l : List (κ × β)) :
    lookupKey k (mapKey k f l) = (lookupKey k l).map f := by
  induction l with
  | nil => simp [lookupKey, mapKey]
  | cons kv rest ih =>
      obtain ⟨k2, v⟩ := kv
      by_cases h : k2 = k
      · simp [lookupKey, mapKey, h]
      · simp [lookupKey, mapKey, h, ih]

theorem lookupKey_mapKey_ne {j k : κ} (h : j ≠ k) (f : β → β)
    (l : List (κ × β)) : lookupKey j (mapKey k f l) = lookupKey j l := by
  induction l with
  | nil => simp [lookupKey, mapKey]
  | cons kv rest ih =>
      obtain ⟨k2, v⟩ := kv
      by_cases h2 : k2 = k
      · subst h2
        simp [lookupKey, mapKey, Ne.symm h]
      · by_cases h3 : k2 = j
        · simp [lookupKey, mapKey, h2, h3, h]
        · simp [lookupKey, mapKey, h2, h3, ih]

theorem keys_mapKey (k : κ) (f : β → β) (l : List (κ × β)) :
    (mapKey k f l).map Prod.fst = l.map Prod.fst := by
  induction l with
  | nil => simp [mapKey]
  | cons kv rest ih =>
      obtain ⟨k2, v⟩ := kv
      by_cases h : k2 = k
      · simp [mapKey, h]
      · simp [mapKey, h, ih]

theorem lookupKey_eraseKey_self (k : κ) (l : List (κ × β)) :
    lookupKey k (eraseKey k l) = none := by
  induction l with
  | nil => simp [lookupKey, eraseKey]
  | cons kv rest ih =>
      obtain ⟨k2, v⟩ := kv
      by_cases h : k2 = k
      · simp [eraseKey, h, ih]
      · simp [lookupKey, eraseKey, h, ih]

theorem lookupKey_eraseKey_ne {j k : κ} (h : j ≠ k) (l : List (κ × β)) :
    lookupKey j (eraseKey k l) = lookupKey j l := by
  induction l with
  | nil => simp [lookupKey, eraseKey]
  | cons kv rest ih =>
      obtain ⟨k2, v⟩ := kv
      by_cases h2 : k2 = k
      · subst h2
        simp [lookupKey, eraseKey, Ne.symm h, ih]
      · by_cases h3 : k2 = j
        · simp [lookupKey, eraseKey, h2, h3, h]
        · simp [lookupKey, eraseKey, h2, h3, ih]

theorem lookupKey_append_of_none {k : κ} {l1 : List (κ × β)}
    (h : lookupKey k l1 = none) (l2 : List (κ × β)) :
    lookupKey k (l1 ++ l2) = lookupKey k l2 := by
  induction l1 with
  | nil => simp
  | cons kv rest ih =>
      obtain ⟨k2, v⟩ := kv
      by_cases h2 : k2 = k
      · simp [lookupKey, h2] at h
      · simp [lookupKey, h2] at h ⊢
        exact ih h

theorem lookupKey_append_of_some {k : κ} {l1 : List (κ × β)} {v : β}
    (h : lookupKey k l1 = some v) (l2 : List (κ × β)) :
    lookupKey k (l1 ++ l2) = some v := by
  induction l1 with
  | nil => simp [lookupKey] at h
  | cons kv rest ih =>
      obtain ⟨k2, v2⟩ := kv
      by_cases h2 : k2 = k
      · simp [lookupKey, h2] at h ⊢
        exact h
      · simp [lookupKey, h2] at h ⊢
        exact ih h

theorem lookupKey_singleton_self (k : κ) (v : β) :
    lookupKey k [(k, v)] = some v := by
  simp [lookupKey]

theorem lookupKey_isSome_iff_mem (k : κ) (l : List (κ × β)) :
    (lookupKey k l).isSome ↔ k ∈ l.map Prod.fst := by
  induction l with
  | nil => simp [lookupKey]
  | cons kv rest ih =>
      obtain ⟨k2, v⟩ := kv
      by_cases h : k2 = k
      · simp [lookupKey, h]
      · simp [lookupKey, h, ih, Ne.symm h]

theorem lookupKey_map_snd (k : κ) (f : β → β) (l : List (κ × β)) :
    lookupKey k (l.map (fun kv => (kv.1, f kv.2))) = (lookupKey k l).map f := by
  induction l with
  | nil => simp [lookupKey]
  | cons kv rest ih =>
      obtain ⟨k2, v⟩ := kv
      by_cases h : k2 = k
      · simp [lookupKey, h]
      · simp [lookupKey, h, ih]

end AssocLemmas

theorem lastFive_length_le (l : List α) : (lastFive l).length ≤ 5 := by
  simp [lastFive]
  omega

theorem lastFive_length_of_long {l : List α} (h : 5 < l.length) :
    (lastFive l).length = 5 := by
  simp [lastFive]
  omega

theorem take_append_lastFive (l : List α) :
    l.take (l.length - 5) ++ lastFive l = l :=
  List.take_append_drop _ l

theorem isTimestampedRecord_tsRecord (item : Val) (now : String) :
    isTimestampedRecord (tsRecord item now) = true := by
  simp [isTimestampedRecord, tsRecord, lookupKey]

theorem isTimestampedRecord_chatRecord (role content : String) :
    isTimestampedRecord (chatRecord role content) = false := by
  simp [isTimestampedRecord, chatRecord, lookupKey]

theorem get_or_create_of_none {s : Store} {uid : String} (now : String)
    (h : lookupKey uid s = none) :
    get_or_create_session s uid now =
      (s ++ [(uid, TouristProfile.create uid now)],
       TouristProfile.create uid now) := by
  simp [get_or_create_session, h]

theorem get_or_create_of_some {s : Store} {uid : String} (now : String)
    {p : TouristProfile} (h : lookupKey uid s = some p) :
    get_or_create_session s uid now = (s, p) := by
  simp [get_or_create_session, h]

theorem driver_step_empty_eq (st : DriverState) (gen : GenOutcome)
    (raw now : String) (h : pyStrip raw = "") :
    driver_step st raw gen now = (st, none) := by
  simp [driver_step, h]

theorem driver_step_quit_eq (st : DriverState) (gen : GenOutcome)
    (raw now : String) (h : pyLower (pyStrip raw) = "quit") :
    driver_step st raw gen now =
      ({ st with mode := Mode.terminated },
       some "🙏 Thank you for using Detty-December Advisor! Enjoy Lagos! Stay safe!") := by
  have hne : pyStrip raw ≠ "" := by
    intro he
    rw [he] at h
    exact absurd h (by decide)
  simp [driver_step, hne, h]

theorem driver_step_clear_eq (st : DriverState) (gen : GenOutcome)
    (raw now : String) (h : pyLower (pyStrip raw) = "clear") :
    driver_step st raw gen now =
      ({ st with
          store := (eraseKey st.tourist_id st.store ++
            [(st.tourist_id, TouristProfile.create st.tourist_id now)]),
          orchestrator :=
            { tourist_id := st.tourist_id,
              context := (TouristProfile.create st.tourist_id now).to_dict } },
       some "✨ Session cleared. Starting fresh!") := by
  have hne : pyStrip raw ≠ "" := by
    intro he
    rw [he] at h
    exact absurd h (by decide)
  have hq : pyLower (pyStrip raw) ≠ "quit" := by
    rw [h]
    decide
  have h1 : lookupKey st.tourist_id (eraseKey st.tourist_id st.store) = none :=
    lookupKey_eraseKey_self _ _
  have h2 : lookupKey st.tourist_id
      (eraseKey st.tourist_id st.store ++
        [(st.tourist_id, TouristProfile.create st.tourist_id now)]) =
      some (TouristProfile.create st.tourist_id now) := by
    rw [lookupKey_append_of_none h1]
    exact lookupKey_singleton_self _ _
  simp [driver_step, hne, hq, h, create_orchestrator_agent,
        build_orchestrator_context, get_or_create_session, h1, h2]

theorem driver_step_reply_eq (st : DriverState) (raw text now : String)
    (hne : pyStrip raw ≠ "") (hq : pyLower (pyStrip raw) ≠ "quit")
    (hc : pyLower (pyStrip raw) ≠ "clear") :
    driver_step st raw (GenOutcome.reply text) now =
      ({ st with
          store := (mapKey st.tourist_id
            (fun p => p.extend_chat_history (pyStrip raw) text) st.store),
          conversation_history := (st.conversation_history ++
            [chatRecord "user" (pyStrip raw), chatRecord "agent" text]) },
       some text) := by
  simp [driver_step, hne, hq, hc]

theorem driver_step_failure_eq (st : DriverState) (raw err now : String)
    (hne : pyStrip raw ≠ "") (hq : pyLower (pyStrip raw) ≠ "quit")
    (hc : pyLower (pyStrip raw) ≠ "clear") :
    driver_step st raw (GenOutcome.failure err) now =
      ({ st with
          conversation_history := (st.conversation_history ++
            [chatRecord "user" (pyStrip raw)]) },
       some ("⚠️ Error: " ++ err ++
             "\nPlease try again or rephrase your request.")) := by
  simp [driver_step, hne, hq, hc]

/-- C6: the snapshot projection returns at most five entries per memory
category, and for a category with more than five entries it returns
exactly the last five in append order (the stored list is its untouched
front followed by the projected suffix, most recent last). -/
theorem snapshot_projects_last_five (p : TouristProfile) (k : String)
    (l : List Val) (h : lookupKey k p.memory_bank = some l) :
    lookupKey k p.to_dict.recent_memory = some (lastFive l) ∧
    (lastFive l).length ≤ 5 ∧
    l.take (l.length - 5) ++ lastFive l = l ∧
    (5 < l.length → (lastFive l).length = 5) := by
  refine ⟨?_, lastFive_length_le l, take_append_lastFive l,
    fun h5 => lastFive_length_of_long h5⟩
  simp [TouristProfile.to_dict, lookupKey_map_snd, h]

theorem snapshot_projects_last_five_witness :
    (lookupKey "bookings" sevenBookingsProfile.memory_bank =
      some ((lookupKey "bookings" sevenBookingsProfile.memory_bank).getD [])) ∧
    5 < ((lookupKey "bookings" sevenBookingsProfile.memory_bank).getD []).length ∧
    lookupKey "bookings" sevenBookingsProfile.to_dict.recent_memory =
      some (lastFive
        ((lookupKey "bookings" sevenBookingsProfile.memory_bank).getD [])) ∧
    (lastFive
      ((lookupKey "bookings" sevenBookingsProfile.memory_bank).getD [])).length = 5 := by
  have h := snapshot_projects_last_five sevenBookingsProfile "bookings"
    ((lookupKey "bookings" sevenBookingsProfile.memory_bank).getD []) (by rfl)
  exact ⟨by rfl, by decide, h.1, h.2.2.2 (by decide)⟩

/-- C7: for a profile with the five fixed categories, saving to one of
the five appends exactly one timestamped record at the end of that
category and leaves every other category and the category set unchanged;
saving to any other name is an exact no-op. -/
theorem append_memory_closed_categories (p : TouristProfile)
    (category : String) (item : Val) (now : String)
    (hkeys : p.memory_bank.map Prod.fst = memory_categories) :
    (category ∈ memory_categories →
      ∃ l, lookupKey category p.memory_bank = some l ∧
        lookupKey category (p.save_to_memory category item now).memory_bank =
          some (l ++ [tsRecord item now]) ∧
        (∀ k, k ≠ category →
          lookupKey k (p.save_to_memory category item now).memory_bank =
            lookupKey k p.memory_bank) ∧
        (p.save_to_memory category item now).memory_bank.map Prod.fst =
          memory_categories) ∧
    (category ∉ memory_categories → p.save_to_memory category item now = p) := by
  constructor
  · intro hmem
    have hs : (lookupKey category p.memory_bank).isSome = true := by
      rw [lookupKey_isSome_iff_mem, hkeys]
      exact hmem
    obtain ⟨l, hl⟩ := Option.isSome_iff_exists.mp hs
    refine ⟨l, hl, ?_, ?_, ?_⟩
    · simp only [TouristProfile.save_to_memory, hs, if_true]
      rw [lookupKey_mapKey_self, hl]
      rfl
    · intro k hk
      simp only [TouristProfile.save_to_memory, hs, if_true]
      exact lookupKey_mapKey_ne hk _ _
    · simp only [TouristProfile.save_to_memory, hs, if_true]
      rw [keys_mapKey]
      exact hkeys
  · intro hmem
    have hs : (lookupKey category p.memory_bank).isSome = false := by
      rw [Bool.eq_false_iff]
      intro hcontra
      rw [lookupKey_isSome_iff_mem, hkeys] at hcontra
      exact hmem hcontra
    simp only [TouristProfile.save_to_memory, hs, if_false]
    rfl

theorem append_memory_closed_categories_witness :
    ((TouristProfile.create "u" "t0").memory_bank.map Prod.fst =
      memory_categories) ∧
    "bookings" ∈ memory_categories ∧
    (∃ l, lookupKey "bookings" (TouristProfile.create "u" "t0").memory_bank =
        some l ∧
      lookupKey "bookings"
          ((TouristProfile.create "u" "t0").save_to_memory "bookings"
            (Val.nat 1) "t1").memory_bank =
        some (l ++ [tsRecord (Val.nat 1) "t1"]) ∧
      (∀ k, k ≠ "bookings" →
        lookupKey k
            ((TouristProfile.create "u" "t0").save_to_memory "bookings"
              (Val.nat 1) "t1").memory_bank =
          lookupKey k (TouristProfile.create "u" "t0").memory_bank) ∧
      ((TouristProfile.create "u" "t0").save_to_memory "bookings"
          (Val.nat 1) "t1").memory_bank.map Prod.fst = memory_categories) :=
  ⟨rfl, by decide,
   (append_memory_closed_categories (TouristProfile.create "u" "t0")
     "bookings" (Val.nat 1) "t1" rfl).1 (by decide)⟩

/-- C10: for any location outside the four known areas, the safety check
returns the fixed default envelope: score 5 and status caution by day,
score 3 and status avoid by night, with the default alert, the default
recommendation and the standard emergency contacts. -/
theorem unknown_location_default_envelope (loc : String)
    (h : loc ∉ ["Lekki", "VI", "Surulere", "Ikoyi"]) :
    check_safety_status loc "day" =
      some { location := loc, time_of_day := "day", safety_score := 5,
             status := "caution", alerts := ["Check latest info"],
             recommendation := "Exercise caution",
             emergency_contacts := emergency_contacts } ∧
    check_safety_status loc "night" =
      some { location := loc, time_of_day := "night", safety_score := 3,
             status := "avoid", alerts := ["Check latest info"],
             recommendation := "Exercise caution",
             emergency_contacts := emergency_contacts } := by
  simp only [List.mem_cons, List.mem_singleton, not_or] at h
  obtain ⟨h1, h2, h3, h4, -⟩ := h
  have hdb : lookupKey loc safety_db = none := by
    simp [safety_db, lookupKey, Ne.symm h1, Ne.symm h2, Ne.symm h3, Ne.symm h4]
  constructor
  · simp [check_safety_status, hdb, default_safety_info]
  · simp [check_safety_status, hdb, default_safety_info]

theorem unknown_location_default_envelope_witness :
    ("Badagry" ∉ ["Lekki", "VI", "Surulere", "Ikoyi"]) ∧
    check_safety_status "Badagry" "day" =
      some { location := "Badagry", time_of_day := "day", safety_score := 5,
             status := "caution", alerts := ["Check latest info"],
             recommendation := "Exercise caution",
             emergency_contacts := emergency_contacts } ∧
    check_safety_status "Badagry" "night" =
      some { location := "Badagry", time_of_day := "night", safety_score := 3,
             status := "avoid", alerts := ["Check latest info"],
             recommendation := "Exercise caution",
             emergency_contacts := emergency_contacts } := by
  have h := unknown_location_default_envelope "Badagry" (by decide)
  exact ⟨by decide, h.1, h.2⟩

/-- C2 counterexample: for the unknown location Badagry (a composite-key
miss), the safety module does not return an empty success envelope: its
status field is the derived safety status caution, not success, and its
alerts list is non-empty. -/
theorem capability_miss_claim_counterexample :
    (check_safety_status "Badagry" "day").map SafetyResult.status =
      some "caution" ∧
    ¬ (check_safety_status "Badagry" "day").map SafetyResult.status =
      some "success" ∧
    (check_safety_status "Badagry" "day").map SafetyResult.alerts =
      some ["Check latest info"] := by
  refine ⟨rfl, ?_⟩
  constructor
  · intro hcontra
    have := congrArg (fun o => o.getD "x") hcontra
    exact absurd this (by decide)
  · rfl

/-- C2 amended: on a composite-key miss the attraction and hotel modules
return a well-formed empty envelope with status success and count 0,
the tips module returns an empty tips list (its envelope carries no
status or count field), and the safety module never raises for a valid
time of day but returns its non-empty default envelope, whose status is
a safety grade, never the string success. -/
theorem capability_miss_envelopes :
    (∀ loc cat bud now, lookupKey (loc, cat, bud) attractions_db = none →
      (search_attractions loc cat bud now).status = "success" ∧
      (search_attractions loc cat bud now).count = 0 ∧
      (search_attractions loc cat bud now).attractions = []) ∧
    (∀ loc bud n ci, lookupKey (loc, bud) hotels_db = none →
      (search_hotels loc bud n ci).status = "success" ∧
      (search_hotels loc bud n ci).hotel_count = 0 ∧
      (search_hotels loc bud n ci).hotels = []) ∧
    (∀ c, lookupKey c tips_table = none → (get_local_tips c).tips = []) ∧
    (∀ loc, lookupKey loc safety_db = none →
      (check_safety_status loc "day").isSome = true ∧
      (check_safety_status loc "night").isSome = true ∧
      (check_safety_status loc "day").map SafetyResult.status =
        some "caution" ∧
      ¬ (check_safety_status loc "day").map SafetyResult.status =
        some "success") := by
  refine ⟨?_, ?_, ?_, ?_⟩
  · intro loc cat bud now h
    simp [search_attractions, h]
  · intro loc bud n ci h
    simp [search_hotels, h]
  · intro c h
    simp [get_local_tips, h]
  · intro loc h
    refine ⟨?_, ?_, ?_, ?_⟩
    · simp [check_safety_status, h]
    · simp [check_safety_status, h]
    · simp [check_safety_status, h, default_safety_info]
    · simp [check_safety_status, h, default_safety_info]

theorem capability_miss_envelopes_witness :
    (lookupKey ("Yaba", "beach", "budget") attractions_db = none) ∧
    (search_attractions "Yaba" "beach" "budget" "t0").status = "success" ∧
    (search_attractions "Yaba" "beach" "budget" "t0").count = 0 ∧
    (search_attractions "Yaba" "beach" "budget" "t0").attractions = [] :=
  ⟨rfl, capability_miss_envelopes.1 "Yaba" "beach" "budget" "t0" rfl⟩


/-- C4: a clear command destroys the profile for the tourist id; the
profile subsequently observed for that id is a freshly created default
profile (default preferences, all five memory categories empty), and the
orchestrator is recreated with the fresh projection as its context. -/
theorem clear_resets_profile (st : DriverState) (gen : GenOutcome)
    (raw now : String) (h : pyLower (pyStrip raw) = "clear") :
    lookupKey st.tourist_id ((driver_step st raw gen now).1).store =
      some (TouristProfile.create st.tourist_id now) ∧
    (TouristProfile.create st.tourist_id now).preferences =
      [("budget", Val.str "moderate"), ("interests", Val.vlist []),
       ("duration", Val.nat 0), ("dietary_restrictions", Val.vlist []),
       ("mobility_concerns", Val.vlist [])] ∧
    (TouristProfile.create st.tourist_id now).memory_bank =
      [("visited_places", []), ("saved_restaurants", []), ("bookings", []),
       ("safety_alerts", []), ("chat_history", [])] ∧
    ((driver_step st raw gen now).1).orchestrator.context =
      (TouristProfile.create st.tourist_id now).to_dict := by
  rw [driver_step_clear_eq st gen raw now h]
  refine ⟨?_, rfl, rfl, rfl⟩
  have h1 : lookupKey st.tourist_id (eraseKey st.tourist_id st.store) = none :=
    lookupKey_eraseKey_self _ _
  rw [lookupKey_append_of_none h1]
  exact lookupKey_singleton_self _ _

theorem clear_resets_profile_witness :
    (pyLower (pyStrip " CLEAR ") = "clear") ∧
    lookupKey "T1"
        ((driver_step (init_driver "T1" "t0") " CLEAR "
          (GenOutcome.reply "x") "t1").1).store =
      some (TouristProfile.create "T1" "t1") ∧
    ((driver_step (init_driver "T1" "t0") " CLEAR "
        (GenOutcome.reply "x") "t1").1).orchestrator.context =
      (TouristProfile.create "T1" "t1").to_dict := by
  have h := clear_resets_profile (init_driver "T1" "t0")
    (GenOutcome.reply "x") " CLEAR " "t1" (by decide)
  exact ⟨by decide, h.1, h.2.2.2⟩

theorem make_booking_reminder_appends (s : Store)
    (location activity date time uid now : String)
    (hwf : ∀ p, lookupKey uid s = some p →
      (lookupKey "bookings" p.memory_bank).isSome = true) :
    categoryEntries
        (make_booking_reminder s location activity date time uid now).1
        uid "bookings" =
      categoryEntries s uid "bookings" ++
        [tsRecord (bookingItem location activity date time) now] ∧
    (∀ p2, lookupKey uid
        (make_booking_reminder s location activity date time uid now).1 =
          some p2 →
      (lookupKey "bookings" p2.memory_bank).isSome = true) := by
  match hcase : lookupKey uid s with
  | some p =>
      have hb := hwf p hcase
      obtain ⟨l, hl⟩ := Option.isSome_iff_exists.mp hb
      have hsave : lookupKey "bookings"
          (p.save_to_memory "bookings"
            (bookingItem location activity date time) now).memory_bank =
          some (l ++ [tsRecord (bookingItem location activity date time) now]) := by
        simp only [TouristProfile.save_to_memory, hb, if_true]
        rw [lookupKey_mapKey_self, hl]
        rfl
      have hstep : lookupKey uid
          (make_booking_reminder s location activity date time uid now).1 =
          some (p.save_to_memory "bookings"
            (bookingItem location activity date time) now) := by
        simp only [make_booking_reminder, get_or_create_of_some now hcase]
        rw [lookupKey_mapKey_self, hcase]
        rfl
      constructor
      · simp only [categoryEntries, hstep, hcase, hsave, hl]
        rfl
      · intro p2 hp2
        rw [hstep] at hp2
        cases hp2
        simp only [hsave, Option.isSome_some]
  | none =>
      have hcreate : lookupKey uid
          (s ++ [(uid, TouristProfile.create uid now)]) =
          some (TouristProfile.create uid now) := by
        rw [lookupKey_append_of_none hcase]
        exact lookupKey_singleton_self _ _
      have hsave : lookupKey "bookings"
          ((TouristProfile.create uid now).save_to_memory "bookings"
            (bookingItem location activity date time) now).memory_bank =
          some [tsRecord (bookingItem location activity date time) now] := by
        rfl
      have hstep : lookupKey uid
          (make_booking_reminder s location activity date time uid now).1 =
          some ((TouristProfile.create uid now).save_to_memory "bookings"
            (bookingItem location activity date time) now) := by
        simp only [make_booking_reminder, get_or_create_of_none now hcase]
        rw [lookupKey_mapKey_self, hcreate]
        rfl
      constructor
      · simp only [categoryEntries, hstep, hcase, hsave]
        rfl
      · intro p2 hp2
        rw [hstep] at hp2
        cases hp2
        simp only [hsave, Option.isSome_some]

/-- C5: two Reminder calls with identical (user_id, activity, date, time)
return the same reminder identifier, yet each call appends a fresh entry
to the bookings category: after both calls the category holds two more
entries than before (one more after the first call). -/
theorem reminder_idempotent_id_duplicated_log (s : Store)
    (location activity date time uid now1 now2 : String)
    (hwf : ∀ p, lookupKey uid s = some p →
      (lookupKey "bookings" p.memory_bank).isSome = true) :
    (make_booking_reminder s location activity date time uid now1).2.reminder_id =
      (make_booking_reminder
        (make_booking_reminder s location activity date time uid now1).1
        location activity date time uid now2).2.reminder_id ∧
    (categoryEntries
        (make_booking_reminder
          (make_booking_reminder s location activity date time uid now1).1
          location activity date time uid now2).1
        uid "bookings").length =
      (categoryEntries s uid "bookings").length + 2 ∧
    (categoryEntries
        (make_booking_reminder s location activity date time uid now1).1
        uid "bookings").length =
      (categoryEntries s uid "bookings").length + 1 := by
  obtain ⟨h1, hwf1⟩ :=
    make_booking_reminder_appends s location activity date time uid now1 hwf
  obtain ⟨h2, -⟩ :=
    make_booking_reminder_appends
      (make_booking_reminder s location activity date time uid now1).1
      location activity date time uid now2 hwf1
  refine ⟨rfl, ?_, ?_⟩
  · rw [h2, h1]
    simp
  · rw [h1]
    simp

theorem reminder_idempotent_id_duplicated_log_witness :
    (make_booking_reminder [] "Lekki" "tour" "2025-12-05" "10:00" "T9" "t0").2.reminder_id =
      (make_booking_reminder
        (make_booking_reminder [] "Lekki" "tour" "2025-12-05" "10:00" "T9" "t0").1
        "Lekki" "tour" "2025-12-05" "10:00" "T9" "t1").2.reminder_id ∧
    (categoryEntries
        (make_booking_reminder
          (make_booking_reminder [] "Lekki" "tour" "2025-12-05" "10:00" "T9" "t0").1
          "Lekki" "tour" "2025-12-05" "10:00" "T9" "t1").1
        "T9" "bookings").length =
      (categoryEntries ([] : Store) "T9" "bookings").length + 2 ∧
    (categoryEntries
        (make_booking_reminder [] "Lekki" "tour" "2025-12-05" "10:00" "T9" "t0").1
        "T9" "bookings").length =
      (categoryEntries ([] : Store) "T9" "bookings").length + 1 :=
  reminder_idempotent_id_duplicated_log [] "Lekki" "tour" "2025-12-05"
    "10:00" "T9" "t0" "t1" (fun _p hp => Option.noConfusion hp)

/-- C3: a successfully processed turn appends exactly two records to the
chat history of the stored profile - the user utterance record, then the
agent reply record, in that order - and changes no other memory category
and no other profile in the store. -/
theorem turn_appends_user_then_agent (st : DriverState) (raw text now : String)
    (hne : pyStrip raw ≠ "") (hq : pyLower (pyStrip raw) ≠ "quit")
    (hc : pyLower (pyStrip raw) ≠ "clear")
    (p : TouristProfile) (hp : lookupKey st.tourist_id st.store = some p)
    (l : List Val) (hch : lookupKey "chat_history" p.memory_bank = some l) :
    categoryEntries ((driver_step st raw (GenOutcome.reply text) now).1).store
        st.tourist_id "chat_history" =
      categoryEntries st.store st.tourist_id "chat_history" ++
        [chatRecord "user" (pyStrip raw), chatRecord "agent" text] ∧
    (∀ c, c ≠ "chat_history" →
      categoryEntries ((driver_step st raw (GenOutcome.reply text) now).1).store
          st.tourist_id c =
        categoryEntries st.store st.tourist_id c) ∧
    (∀ uid, uid ≠ st.tourist_id →
      lookupKey uid ((driver_step st raw (GenOutcome.reply text) now).1).store =
        lookupKey uid st.store) := by
  rw [driver_step_reply_eq st raw text now hne hq hc]
  have hstep : lookupKey st.tourist_id
      (mapKey st.tourist_id
        (fun q => q.extend_chat_history (pyStrip raw) text) st.store) =
      some (p.extend_chat_history (pyStrip raw) text) := by
    rw [lookupKey_mapKey_self, hp]
    rfl
  refine ⟨?_, ?_, ?_⟩
  · simp only [categoryEntries, hstep, hp]
    simp only [TouristProfile.extend_chat_history]
    rw [lookupKey_mapKey_self, hch]
    rfl
  · intro c hcne
    simp only [categoryEntries, hstep, hp]
    simp only [TouristProfile.extend_chat_history]
    rw [lookupKey_mapKey_ne hcne]
  · intro uid huid
    exact lookupKey_mapKey_ne huid _ _

theorem turn_appends_user_then_agent_witness :
    (lookupKey "T1" (init_driver "T1" "t0").store =
      some (TouristProfile.create "T1" "t0")) ∧
    categoryEntries
        ((driver_step (init_driver "T1" "t0") "hello"
          (GenOutcome.reply "hi") "t1").1).store "T1" "chat_history" =
      categoryEntries (init_driver "T1" "t0").store "T1" "chat_history" ++
        [chatRecord "user" (pyStrip "hello"), chatRecord "agent" "hi"] := by
  have h := turn_appends_user_then_agent (init_driver "T1" "t0") "hello" "hi"
    "t1" (by decide) (by decide) (by decide)
    (TouristProfile.create "T1" "t0") rfl [] rfl
  exact ⟨rfl, h.1⟩

/-- C9: when the generation call raises during a turn, the driver
catches the fault, prints the retry-inviting error message, leaves the
whole session store (hence chat history) untouched, keeps the same
orchestrator, and returns to awaiting input; the loop reaches the
terminated mode exactly when the stripped, lowercased input is quit. -/
theorem failed_turn_recoverable (st : DriverState) (raw err now : String)
    (hmode : st.mode = Mode.awaiting)
    (hne : pyStrip raw ≠ "") (hq : pyLower (pyStrip raw) ≠ "quit")
    (hc : pyLower (pyStrip raw) ≠ "clear") :
    ((driver_step st raw (GenOutcome.failure err) now).1).store = st.store ∧
    ((driver_step st raw (GenOutcome.failure err) now).1).mode =
      Mode.awaiting ∧
    ((driver_step st raw (GenOutcome.failure err) now).1).orchestrator =
      st.orchestrator ∧
    (driver_step st raw (GenOutcome.failure err) now).2 =
      some ("⚠️ Error: " ++ err ++
        "\nPlease try again or rephrase your request.") ∧
    (∀ raw2 gen2 now2,
      ((driver_step st raw2 gen2 now2).1).mode = Mode.terminated ↔
        pyLower (pyStrip raw2) = "quit") := by
  rw [driver_step_failure_eq st raw err now hne hq hc]
  refine ⟨rfl, hmode, rfl, rfl, ?_⟩
  intro raw2 gen2 now2
  constructor
  · intro hterm
    by_cases he : pyStrip raw2 = ""
    · rw [driver_step_empty_eq st gen2 raw2 now2 he] at hterm
      rw [hmode] at hterm
      exact Mode.noConfusion hterm
    · by_cases hqq : pyLower (pyStrip raw2) = "quit"
      · exact hqq
      · by_cases hcc : pyLower (pyStrip raw2) = "clear"
        · rw [driver_step_clear_eq st gen2 raw2 now2 hcc] at hterm
          rw [show ({ st with
              store := (eraseKey st.tourist_id st.store ++
                [(st.tourist_id, TouristProfile.create st.tourist_id now2)]),
              orchestrator :=
                { tourist_id := st.tourist_id,
                  context := (TouristProfile.create st.tourist_id
                    now2).to_dict } } : DriverState).mode = st.mode from rfl,
            hmode] at hterm
          exact Mode.noConfusion hterm
        · cases gen2 with
          | reply text =>
              rw [driver_step_reply_eq st raw2 text now2 he hqq hcc] at hterm
              rw [show ({ st with
                  store := (mapKey st.tourist_id
                    (fun q => q.extend_chat_history (pyStrip raw2) text)
                    st.store),
                  conversation_history := (st.conversation_history ++
                    [chatRecord "user" (pyStrip raw2),
                     chatRecord "agent" text]) } : DriverState).mode = st.mode
                from rfl, hmode] at hterm
              exact Mode.noConfusion hterm
          | failure err2 =>
              rw [driver_step_failure_eq st raw2 err2 now2 he hqq hcc] at hterm
              rw [show ({ st with
                  conversation_history := (st.conversation_history ++
                    [chatRecord "user" (pyStrip raw2)]) } : DriverState).mode =
                  st.mode from rfl, hmode] at hterm
              exact Mode.noConfusion hterm
  · intro hqq
    rw [driver_step_quit_eq st gen2 raw2 now2 hqq]

theorem failed_turn_recoverable_witness :
    ((driver_step (init_driver "T1" "t0") "plan a trip"
        (GenOutcome.failure "boom") "t1").1).store =
      (init_driver "T1" "t0").store ∧
    ((driver_step (init_driver "T1" "t0") "plan a trip"
        (GenOutcome.failure "boom") "t1").1).mode = Mode.awaiting ∧
    (driver_step (init_driver "T1" "t0") "plan a trip"
        (GenOutcome.failure "boom") "t1").2 =
      some ("⚠️ Error: " ++ "boom" ++
        "\nPlease try again or rephrase your request.") ∧
    (((driver_step (init_driver "T1" "t0") " QUIT "
        (GenOutcome.reply "x") "t2").1).mode = Mode.terminated ↔
      pyLower (pyStrip " QUIT ") = "quit") := by
  have h := failed_turn_recoverable (init_driver "T1" "t0") "plan a trip"
    "boom" "t1" rfl (by decide) (by decide) (by decide)
  exact ⟨h.1, h.2.1, h.2.2.2.1, h.2.2.2.2 " QUIT " (GenOutcome.reply "x") "t2"⟩

/-- C1 counterexample: run one successful turn for tourist T1.  The
orchestrator still holds the context built at session start (empty chat
history), while the Profile Store projection current at the next turn
already contains the two chat records of the first turn, so the context
supplied to the orchestrator is not the projection of the state current
at that turn. -/
theorem stale_context_counterexample :
    ¬ storeProjection
        ((driver_step (init_driver "T1" "t0") "hello"
          (GenOutcome.reply "hi there") "t1").1).store "T1" =
      some (((driver_step (init_driver "T1" "t0") "hello"
        (GenOutcome.reply "hi there") "t1").1).orchestrator.context) := by
  intro hcontra
  have hlen := congrArg (fun o => ((o.map (fun d =>
    ((lookupKey "chat_history" d.recent_memory).getD []).length)).getD 0))
    hcontra
  exact absurd hlen (by decide)

/-- C1 amended: the working context embedded in the orchestrator is the
five-most-recent-per-category plus full-preference projection of the
Profile Store state at the moment the orchestrator was created - session
start or the most recent clear - and is not rebuilt by ordinary turns, so
mutations made by earlier turns of the session are not reflected in the
context of later turns. -/
theorem context_is_projection_at_creation :
    (∀ uid now, storeProjection (init_driver uid now).store uid =
      some ((init_driver uid now).orchestrator.context)) ∧
    (∀ st gen raw now, pyLower (pyStrip raw) = "clear" →
      storeProjection ((driver_step st raw gen now).1).store st.tourist_id =
        some (((driver_step st raw gen now).1).orchestrator.context)) ∧
    (∀ st gen raw now, pyLower (pyStrip raw) ≠ "clear" →
      ((driver_step st raw gen now).1).orchestrator = st.orchestrator) := by
  refine ⟨?_, ?_, ?_⟩
  · intro uid now
    have h1 : lookupKey uid ([] : Store) = none := rfl
    have h2 : lookupKey uid [(uid, TouristProfile.create uid now)] =
        some (TouristProfile.create uid now) := lookupKey_singleton_self _ _
    simp [init_driver, create_orchestrator_agent, build_orchestrator_context,
          get_or_create_session, storeProjection, h1, h2]
  · intro st gen raw now h
    rw [driver_step_clear_eq st gen raw now h]
    have h1 : lookupKey st.tourist_id (eraseKey st.tourist_id st.store) =
        none := lookupKey_eraseKey_self _ _
    have h2 : lookupKey st.tourist_id
        (eraseKey st.tourist_id st.store ++
          [(st.tourist_id, TouristProfile.create st.tourist_id now)]) =
        some (TouristProfile.create st.tourist_id now) := by
      rw [lookupKey_append_of_none h1]
      exact lookupKey_singleton_self _ _
    simp [storeProjection, h2]
  · intro st gen raw now hc
    by_cases he : pyStrip raw = ""
    · rw [driver_step_empty_eq st gen raw now he]
    · by_cases hq : pyLower (pyStrip raw) = "quit"
      · rw [driver_step_quit_eq st gen raw now hq]
      · cases gen with
        | reply text => rw [driver_step_reply_eq st raw text now he hq hc]
        | failure err => rw [driver_step_failure_eq st raw err now he hq hc]

theorem context_is_projection_at_creation_witness :
    (pyLower (pyStrip "clear") = "clear") ∧
    storeProjection
        ((driver_step (init_driver "T1" "t0") "clear"
          (GenOutcome.reply "x") "t1").1).store "T1" =
      some (((driver_step (init_driver "T1" "t0") "clear"
        (GenOutcome.reply "x") "t1").1).orchestrator.context) :=
  ⟨by decide,
   context_is_projection_at_creation.2.1 (init_driver "T1" "t0")
     (GenOutcome.reply "x") "clear" "t1" (by decide)⟩

theorem mapKey_of_none [DecidableEq κ] {k : κ} {l : List (κ × β)}
    (h : lookupKey k l = none) (f : β → β) : mapKey k f l = l := by
  induction l with
  | nil => rfl
  | cons kv rest ih =>
      obtain ⟨k2, v⟩ := kv
      by_cases h2 : k2 = k
      · simp [lookupKey, h2] at h
      · simp [lookupKey, h2] at h
        simp [mapKey, h2, ih h]

theorem profileCategory_create (uid now k : String) :
    profileCategory (TouristProfile.create uid now) k = [] := by
  simp only [profileCategory, TouristProfile.create, init_memory_bank,
    lookupKey]
  split_ifs <;> rfl

theorem save_to_memory_append_only (p : TouristProfile)
    (category : String) (item : Val) (now k : String) :
    ∃ t, profileCategory (p.save_to_memory category item now) k =
        profileCategory p k ++ t ∧
      ∀ e ∈ t, isTimestampedRecord e = true := by
  by_cases hs : (lookupKey category p.memory_bank).isSome = true
  · by_cases hk : k = category
    · subst hk
      obtain ⟨l, hl⟩ := Option.isSome_iff_exists.mp hs
      refine ⟨[tsRecord item now], ?_, ?_⟩
      · simp only [TouristProfile.save_to_memory, hs, if_true,
          profileCategory]
        rw [lookupKey_mapKey_self, hl]
        simp
      · intro e he
        simp only [List.mem_singleton] at he
        subst he
        exact isTimestampedRecord_tsRecord item now
    · refine ⟨[], ?_, ?_⟩
      · simp only [TouristProfile.save_to_memory, hs, if_true,
          profileCategory]
        rw [lookupKey_mapKey_ne hk]
        simp
      · intro e he
        simp at he
  · refine ⟨[], ?_, ?_⟩
    · simp only [TouristProfile.save_to_memory, hs, if_false]
      simp
    · intro e he
      simp at he

theorem booking_append_only (s : Store)
    (location activity date time uid now uid2 k : String) :
    ∃ t, categoryEntries
        (make_booking_reminder s location activity date time uid now).1
        uid2 k =
      categoryEntries s uid2 k ++ t ∧
      ∀ e ∈ t, isTimestampedRecord e = true := by
  match hcase : lookupKey uid s with
  | some p =>
      have hstore : (make_booking_reminder s location activity date time
          uid now).1 = mapKey uid
            (fun q => q.save_to_memory "bookings"
              (bookingItem location activity date time) now) s := by
        simp only [make_booking_reminder, get_or_create_of_some now hcase]
      by_cases hu : uid2 = uid
      · subst hu
        have hstep : lookupKey uid2
            (mapKey uid2
              (fun q => q.save_to_memory "bookings"
                (bookingItem location activity date time) now) s) =
            some (p.save_to_memory "bookings"
              (bookingItem location activity date time) now) := by
          rw [lookupKey_mapKey_self, hcase]
          rfl
        obtain ⟨t, ht, hall⟩ := save_to_memory_append_only p "bookings"
          (bookingItem location activity date time) now k
        refine ⟨t, ?_, hall⟩
        rw [hstore]
        simp only [categoryEntries, hstep, hcase]
        exact ht
      · refine ⟨[], ?_, by intro e he; simp at he⟩
        rw [hstore]
        simp only [categoryEntries, lookupKey_mapKey_ne hu]
        simp
  | none =>
      have hcreate : lookupKey uid
          (s ++ [(uid, TouristProfile.create uid now)]) =
          some (TouristProfile.create uid now) := by
        rw [lookupKey_append_of_none hcase]
        exact lookupKey_singleton_self _ _
      have hstore : (make_booking_reminder s location activity date time
          uid now).1 = mapKey uid
            (fun q => q.save_to_memory "bookings"
              (bookingItem location activity date time) now)
            (s ++ [(uid, TouristProfile.create uid now)]) := by
        simp only [make_booking_reminder, get_or_create_of_none now hcase]
      by_cases hu : uid2 = uid
      · subst hu
        have hstep : lookupKey uid2
            (mapKey uid2
              (fun q => q.save_to_memory "bookings"
                (bookingItem location activity date time) now)
              (s ++ [(uid2, TouristProfile.create uid2 now)])) =
            some ((TouristProfile.create uid2 now).save_to_memory "bookings"
              (bookingItem location activity date time) now) := by
          rw [lookupKey_mapKey_self, hcreate]
          rfl
        obtain ⟨t, ht, hall⟩ := save_to_memory_append_only
          (TouristProfile.create uid2 now) "bookings"
          (bookingItem location activity date time) now k
        rw [profileCategory_create] at ht
        refine ⟨t, ?_, hall⟩
        rw [hstore]
        simp only [categoryEntries, hstep, hcase]
        simpa using ht
      · refine ⟨[], ?_, by intro e he; simp at he⟩
        rw [hstore]
        have hthrough : lookupKey uid2
            (s ++ [(uid, TouristProfile.create uid now)]) =
            lookupKey uid2 s := by
          match hc2 : lookupKey uid2 s with
          | some q => exact lookupKey_append_of_some hc2 _
          | none =>
              rw [lookupKey_append_of_none hc2]
              simp [lookupKey, hu, Ne.symm hu]
        simp only [categoryEntries, lookupKey_mapKey_ne hu, hthrough]
        simp

theorem turn_append_only (st : DriverState) (raw : String)
    (gen : GenOutcome) (now k : String)
    (hc : pyLower (pyStrip raw) ≠ "clear") :
    ∃ t, categoryEntries ((driver_step st raw gen now).1).store
        st.tourist_id k =
      categoryEntries st.store st.tourist_id k ++ t ∧
      ∀ e ∈ t, isTimestampedRecord e = false := by
  by_cases he : pyStrip raw = ""
  · rw [driver_step_empty_eq st gen raw now he]
    exact ⟨[], by simp, by intro e he2; simp at he2⟩
  · by_cases hq : pyLower (pyStrip raw) = "quit"
    · rw [driver_step_quit_eq st gen raw now hq]
      exact ⟨[], by simp, by intro e he2; simp at he2⟩
    · cases gen with
      | failure err =>
          rw [driver_step_failure_eq st raw err now he hq hc]
          exact ⟨[], by simp, by intro e he2; simp at he2⟩
      | reply text =>
          rw [driver_step_reply_eq st raw text now he hq hc]
          match hcase : lookupKey st.tourist_id st.store with
          | none =>
              refine ⟨[], ?_, by intro e he2; simp at he2⟩
              simp only [categoryEntries]
              rw [mapKey_of_none hcase]
              simp
          | some p =>
              have hstep : lookupKey st.tourist_id
                  (mapKey st.tourist_id
                    (fun q => q.extend_chat_history (pyStrip raw) text)
                    st.store) =
                  some (p.extend_chat_history (pyStrip raw) text) := by
                rw [lookupKey_mapKey_self, hcase]
                rfl
              by_cases hk : k = "chat_history"
              · subst hk
                match hch : lookupKey "chat_history" p.memory_bank with
                | none =>
                    refine ⟨[], ?_, by intro e he2; simp at he2⟩
                    simp only [categoryEntries, hstep, hcase]
                    simp only [TouristProfile.extend_chat_history]
                    rw [lookupKey_mapKey_self, hch]
                    simp
                | some l =>
                    refine ⟨[chatRecord "user" (pyStrip raw),
                      chatRecord "agent" text], ?_, ?_⟩
                    · simp only [categoryEntries, hstep, hcase]
                      simp only [TouristProfile.extend_chat_history]
                      rw [lookupKey_mapKey_self, hch]
                      rfl
                    · intro e he2
                      rcases List.mem_cons.mp he2 with rfl | h3
                      · exact isTimestampedRecord_chatRecord _ _
                      · rcases List.mem_singleton.mp h3 with rfl
                        exact isTimestampedRecord_chatRecord _ _
              · refine ⟨[], ?_, by intro e he2; simp at he2⟩
                simp only [categoryEntries, hstep, hcase]
                simp only [TouristProfile.extend_chat_history]
                rw [lookupKey_mapKey_ne hk]
                simp

/-- C8 counterexample: after one successful turn, the chat history of
the stored profile holds two entries, and not every entry has the
timestamped {data, timestamp} record shape - the per-turn chat write
stores plain role/content records. -/
theorem untimestamped_chat_entry_counterexample :
    (categoryEntries
        ((driver_step (init_driver "T2" "t0") "hi"
          (GenOutcome.reply "hello") "t1").1).store
        "T2" "chat_history").length = 2 ∧
    (categoryEntries
        ((driver_step (init_driver "T2" "t0") "hi"
          (GenOutcome.reply "hello") "t1").1).store
        "T2" "chat_history").all isTimestampedRecord = false := by
  exact ⟨by decide, by decide⟩

/-- C8 amended: every operation that writes to a profile only appends to
memory categories - existing entries are never removed or edited.
Entries appended through save_to_memory (hence by the Reminder module)
are timestamped {data, timestamp} records; the per-turn chat_history
write of the conversation loop instead appends plain role/content
records that carry no timestamp. -/
theorem memory_writes_append_only :
    (∀ p category item now k,
      profileCategory (p.save_to_memory category item now) k =
        profileCategory p k ++
          (profileCategory (p.save_to_memory category item now) k).drop
            (profileCategory p k).length ∧
      ((profileCategory (p.save_to_memory category item now) k).drop
          (profileCategory p k).length).all isTimestampedRecord = true) ∧
    (∀ s location activity date time uid now uid2 k,
      categoryEntries
          (make_booking_reminder s location activity date time uid now).1
          uid2 k =
        categoryEntries s uid2 k ++
          (categoryEntries
            (make_booking_reminder s location activity date time uid now).1
            uid2 k).drop (categoryEntries s uid2 k).length ∧
      ((categoryEntries
          (make_booking_reminder s location activity date time uid now).1
          uid2 k).drop (categoryEntries s uid2 k).length).all
        isTimestampedRecord = true) ∧
    (∀ st raw gen now k, pyLower (pyStrip raw) ≠ "clear" →
      categoryEntries ((driver_step st raw gen now).1).store
          st.tourist_id k =
        categoryEntries st.store st.tourist_id k ++
          (categoryEntries ((driver_step st raw gen now).1).store
            st.tourist_id k).drop
            (categoryEntries st.store st.tourist_id k).length ∧
      ((categoryEntries ((driver_step st raw gen now).1).store
          st.tourist_id k).drop
          (categoryEntries st.store st.tourist_id k).length).all
        (fun e => !(isTimestampedRecord e)) = true) := by
  refine ⟨?_, ?_, ?_⟩
  · intro p category item now k
    obtain ⟨t, ht, hall⟩ := save_to_memory_append_only p category item now k
    rw [ht, List.drop_left]
    exact ⟨rfl, List.all_eq_true.mpr hall⟩
  · intro s location activity date time uid now uid2 k
    obtain ⟨t, ht, hall⟩ :=
      booking_append_only s location activity date time uid now uid2 k
    rw [ht, List.drop_left]
    exact ⟨rfl, List.all_eq_true.mpr hall⟩
  · intro st raw gen now k hc
    obtain ⟨t, ht, hall⟩ := turn_append_only st raw gen now k hc
    rw [ht, List.drop_left]
    refine ⟨rfl, List.all_eq_true.mpr ?_⟩
    intro e he
    simp [hall e he]

theorem memory_writes_append_only_witness :
    (pyLower (pyStrip "hey") ≠ "clear") ∧
    (categoryEntries
        ((driver_step (init_driver "T3" "t0") "hey"
          (GenOutcome.reply "yo") "t1").1).store "T3" "chat_history" =
      categoryEntries (init_driver "T3" "t0").store "T3" "chat_history" ++
        (categoryEntries
          ((driver_step (init_driver "T3" "t0") "hey"
            (GenOutcome.reply "yo") "t1").1).store "T3" "chat_history").drop
          (categoryEntries (init_driver "T3" "t0").store "T3"
            "chat_history").length ∧
    ((categoryEntries
        ((driver_step (init_driver "T3" "t0") "hey"
          (GenOutcome.reply "yo") "t1").1).store "T3" "chat_history").drop
        (categoryEntries (init_driver "T3" "t0").store "T3"
          "chat_history").length).all
      (fun e => !(isTimestampedRecord e)) = true) :=
  ⟨by decide,
   memory_writes_append_only.2.2 (init_driver "T3" "t0") "hey"
     (GenOutcome.reply "yo") "t1" "chat_history" (by decide)⟩

end DettyDecember
